import Mathlib

/-
Verification of the Aqualytics water-quality prediction engine
(ml-service: inference/predictor.py, utils/data_validator.py,
utils/model_evaluator.py, train/trainer.py).

Python floats are modelled as rationals (ℚ); every constant appearing in
the code (0.5, 0.25, 0.15, 0.01, 0.99, thresholds 6.5, 8.5, 5.0, the
per-feature bounds) is exactly representable, so the comparisons and the
closed-form probability arithmetic the claims are about coincide with the
rational model. Fallible Python code (raise / except) is modelled with
Except. File I/O (joblib, os.path) is modelled by an explicit environment
record saying which artifact files exist and whether deserialization
succeeds.
-/

namespace Aqualytics

/-- Errors raised along the prediction path, by stage:
`shape` is the list-length check in `predict` and the width check in
`validate_inference_data`; `fieldRange` is a pydantic field-constraint
violation raised while constructing `PredictionInput` (before any
validation, scaling or model call); `belowMin` is the hard per-feature
minimum check inside `validate_inference_data`. -/
inductive PredictError where
  | shape (msg : String)
  | fieldRange (msg : String)
  | belowMin (msg : String)
  | engineFailure (msg : String)
deriving Repr, DecidableEq, Inhabited

/-- Input data model for prediction (predictor.py `PredictionInput`):
nine named scalar fields. -/
structure PredictionInput where
  pH : ℚ
  Hardness : ℚ
  Solids : ℚ
  Chloramines : ℚ
  Sulfate : ℚ
  Conductivity : ℚ
  Organic_carbon : ℚ
  Trihalomethanes : ℚ
  Turbidity : ℚ
deriving Repr, DecidableEq, Inhabited

/-- Canonical feature-name order (predictor.py lines 103-107 / 125-129). -/
def featureNames : List String :=
  ["pH", "Hardness", "Solids", "Chloramines", "Sulfate", "Conductivity",
   "Organic_carbon", "Trihalomethanes", "Turbidity"]

/-- Pydantic field constraints on `PredictionInput`: pH has `ge=0, le=14`
(duplicated by the `validate_ph` validator), every other field has `ge=0`.
Constructing the model raises when a constraint fails; this function is
that construction. -/
def mkPredictionInput (x : PredictionInput) : Except PredictError PredictionInput :=
  if ¬ (0 ≤ x.pH ∧ x.pH ≤ 14) then
    Except.error (PredictError.fieldRange "pH must be between 0 and 14")
  else if x.Hardness < 0 then
    Except.error (PredictError.fieldRange "Hardness must be greater than or equal to 0")
  else if x.Solids < 0 then
    Except.error (PredictError.fieldRange "Solids must be greater than or equal to 0")
  else if x.Chloramines < 0 then
    Except.error (PredictError.fieldRange "Chloramines must be greater than or equal to 0")
  else if x.Sulfate < 0 then
    Except.error (PredictError.fieldRange "Sulfate must be greater than or equal to 0")
  else if x.Conductivity < 0 then
    Except.error (PredictError.fieldRange "Conductivity must be greater than or equal to 0")
  else if x.Organic_carbon < 0 then
    Except.error (PredictError.fieldRange "Organic_carbon must be greater than or equal to 0")
  else if x.Trihalomethanes < 0 then
    Except.error (PredictError.fieldRange "Trihalomethanes must be greater than or equal to 0")
  else if x.Turbidity < 0 then
    Except.error (PredictError.fieldRange "Turbidity must be greater than or equal to 0")
  else
    Except.ok x

/-- The list branch of `predict` (predictor.py lines 147-155): a list
input must have exactly 9 elements, with a fixed error message, then the
nine positional values are fed to the pydantic model. -/
def parseList (xs : List ℚ) : Except PredictError PredictionInput :=
  if xs.length ≠ 9 then
    Except.error (PredictError.shape "Input list must have exactly 9 features")
  else
    mkPredictionInput
      { pH := xs.getD 0 0, Hardness := xs.getD 1 0, Solids := xs.getD 2 0,
        Chloramines := xs.getD 3 0, Sulfate := xs.getD 4 0,
        Conductivity := xs.getD 5 0, Organic_carbon := xs.getD 6 0,
        Trihalomethanes := xs.getD 7 0, Turbidity := xs.getD 8 0 }

/-- `PredictionInput.to_array` (predictor.py lines 37-43): the record as a
fixed-order vector (the reshape to a 1×9 row is implicit: we model the
single row). -/
def to_array (x : PredictionInput) : List ℚ :=
  [x.pH, x.Hardness, x.Solids, x.Chloramines, x.Sulfate, x.Conductivity,
   x.Organic_carbon, x.Trihalomethanes, x.Turbidity]

/-- Per-index inference ranges from data_validator.py lines 109-119:
(hard minimum, soft typical maximum) for features 0..8. -/
def feature_ranges : List (ℚ × ℚ) :=
  [(0, 14), (0, 1000), (0, 50000), (0, 20), (0, 1000),
   (0, 2000), (0, 50), (0, 200), (0, 20)]

/-- The range loop of `validate_inference_data` (lines 121-128): walk the
ranges in index order; a value strictly below its minimum raises, a value
above its maximum is only logged as a warning (no effect on the result). -/
def checkMins (row : List ℚ) : List (ℚ × ℚ) → Nat → Except PredictError Unit
  | [], _ => Except.ok ()
  | r :: rest, i =>
      if row.getD i 0 < r.1 then
        Except.error (PredictError.belowMin
          (featureNames.getD i "" ++ " has values below minimum"))
      else checkMins row rest (i + 1)

/-- `validate_inference_data` (data_validator.py lines 83-130) on a single
row: width must match the feature-name list (message naming expected and
received width), then the hard minimum checks run. NaN/infinity checks are
vacuous over ℚ. Soft-maximum warnings are observed by `rowWarnings`. -/
def validate_inference_data (row : List ℚ) (names : List String) : Except PredictError Unit :=
  if row.length ≠ names.length then
    Except.error (PredictError.shape
      ("Expected " ++ toString names.length ++ " features, got " ++ toString row.length))
  else
    checkMins row feature_ranges 0

/-- Indices whose value exceeds the soft typical maximum: exactly the
indices for which `validate_inference_data` logs its warning
(data_validator.py lines 127-128). -/
def rowWarnings (row : List ℚ) : List Nat :=
  (List.range feature_ranges.length).filter
    (fun i => (feature_ranges.getD i (0, 0)).2 < row.getD i 0)

namespace MockModel

/-- `MockModel.predict` (predictor.py lines 249-262) on one row: label 1
(safe) iff pH ∈ [6.5, 8.5] and turbidity ≤ 5.0. The turbidity default 5.0
is taken when the row has no index 8, exactly the Python
`x[8] if len(x) > 8 else 5.0`. -/
def predict (x : List ℚ) : ℤ :=
  let pH := x.getD 0 0
  let turbidity := x.getD 8 5
  if 6.5 ≤ pH ∧ pH ≤ 8.5 ∧ turbidity ≤ 5 then 1 else 0

/-- `MockModel.predict_proba` (predictor.py lines 264-282) on one row:
base probability 0.5, +0.25 if pH in range, +0.15 if turbidity in range,
clamped to [0.01, 0.99]; the returned pair is [unsafe, safe]. -/
def predict_proba (x : List ℚ) : List ℚ :=
  let pH := x.getD 0 0
  let turbidity := x.getD 8 5
  let base_prob : ℚ :=
    0.5 + (if 6.5 ≤ pH ∧ pH ≤ 8.5 then 0.25 else 0)
        + (if turbidity ≤ 5 then 0.15 else 0)
  let safe_prob := min 0.99 (max 0.01 base_prob)
  let unsafe_prob := 1 - safe_prob
  [unsafe_prob, safe_prob]

end MockModel

namespace MockScaler

/-- `MockScaler.transform` (predictor.py lines 287-289): identity
pass-through (the dtype coercion is a no-op in the rational model). -/
def transform (x : List ℚ) : List ℚ := x

end MockScaler

/-- A classifier object as the engine holds it: the rule-based fallback,
or an abstract trained classifier given by its predict / predict_proba
behaviour on a scaled row. -/
inductive ModelObj where
  | mock
  | trained (predictF : List ℚ → ℤ) (probaF : List ℚ → List ℚ)

/-- A scaler object: the fallback identity scaler, or an abstract trained
scaler given by its transform behaviour. -/
inductive ScalerObj where
  | mock
  | trained (transformF : List ℚ → List ℚ)

def ModelObj.predictRow : ModelObj → List ℚ → ℤ
  | ModelObj.mock, x => MockModel.predict x
  | ModelObj.trained f _, x => f x

def ModelObj.probaRow : ModelObj → List ℚ → List ℚ
  | ModelObj.mock, x => MockModel.predict_proba x
  | ModelObj.trained _ g, x => g x

def ModelObj.typeName : ModelObj → String
  | ModelObj.mock => "MockModel"
  | ModelObj.trained _ _ => "RandomForestClassifier"

def ScalerObj.transformRow : ScalerObj → List ℚ → List ℚ
  | ScalerObj.mock, x => MockScaler.transform x
  | ScalerObj.trained t, x => t x

def ScalerObj.typeName : ScalerObj → String
  | ScalerObj.mock => "MockScaler"
  | ScalerObj.trained _ => "StandardScaler"

/-- Engine state (predictor.py `WaterQualityPredictor.__init__`, lines
61-78): model, scaler and feature names start unset, version "1.0.0",
`is_loaded` false. -/
structure PredictorState where
  model : Option ModelObj
  scaler : Option ScalerObj
  feature_names : Option (List String)
  model_version : String
  is_loaded : Bool

/-- Output data model (predictor.py `PredictionOutput`, lines 45-54). -/
structure PredictionOutput where
  prediction : ℤ
  probability : ℚ
  confidence : ℚ
  result : String
  model_version : String
  features_used : List String
deriving Repr, DecidableEq, Inhabited

/-- Python `max` over a nonempty list (predictor.py line 170 applies it to
the probability vector). On the empty list Python raises; that case is
unreachable because line 170 is guarded by `len(probabilities) > 1`. -/
def pyMax (l : List ℚ) : ℚ := l.foldl max (l.headD 0)

/-- predictor.py line 169: `probability` is the second entry of the
probability vector when it has two entries, else the first. -/
def deriveProbability (probabilities : List ℚ) : ℚ :=
  if probabilities.length > 1 then probabilities.getD 1 0 else probabilities.getD 0 0

/-- predictor.py line 170: `confidence` is the maximum of the probability
vector when it has more than one entry, else the first entry. -/
def deriveConfidence (probabilities : List ℚ) : ℚ :=
  if probabilities.length > 1 then pyMax probabilities else probabilities.getD 0 0

/-- predictor.py lines 168-182: assembly of the `PredictionOutput` from
the classifier label and probability vector. -/
def assembleOutput (prediction : ℤ) (probabilities : List ℚ)
    (version : String) (names : List String) : PredictionOutput :=
  { prediction := prediction
    probability := deriveProbability probabilities
    confidence := deriveConfidence probabilities
    result := if prediction = 1 then "Safe" else "Not Safe"
    model_version := version
    features_used := names }

namespace WaterQualityPredictor

/-- The body of `predict` after input normalization (predictor.py lines
157-185): validate the feature row, scale it, run the classifier, and
assemble the output. An engine whose model/scaler/feature names are unset
would raise (caught at the boundary as a generic prediction failure). -/
def predictParsed (st : PredictorState) (x : PredictionInput) :
    Except PredictError PredictionOutput :=
  match st.model, st.scaler, st.feature_names with
  | some m, some s, some names =>
      let features := to_array x
      (validate_inference_data features names).bind (fun _ =>
        let features_scaled := s.transformRow features
        let prediction := m.predictRow features_scaled
        let probabilities := m.probaRow features_scaled
        Except.ok (assembleOutput prediction probabilities st.model_version names))
  | _, _, _ => Except.error (PredictError.engineFailure "predictor attributes unset")

/-- `predict` on a list input (predictor.py lines 133-189): normalize the
list through the pydantic model, then run the prediction body. -/
def predict (st : PredictorState) (xs : List ℚ) : Except PredictError PredictionOutput :=
  (parseList xs).bind (predictParsed st)

/-- `predict_batch` (predictor.py lines 191-212): the loop appends
`predict` results in input order inside one try block; the first raising
element aborts the whole call, so no partial list is surfaced. This is
exactly `mapM` over `Except`. -/
def predict_batch (st : PredictorState) (batch : List (List ℚ)) :
    Except PredictError (List PredictionOutput) :=
  batch.mapM (predict st)

/-- The dictionary returned by `get_model_info` (predictor.py 214-227). -/
structure ModelInfo where
  model_loaded : Bool
  model_version : String
  feature_names : Option (List String)
  model_type : Option String
  scaler_type : Option String

def get_model_info (st : PredictorState) : ModelInfo :=
  { model_loaded := st.is_loaded
    model_version := st.model_version
    feature_names := st.feature_names
    model_type := st.model.map ModelObj.typeName
    scaler_type := st.scaler.map ScalerObj.typeName }

end WaterQualityPredictor

/-- The model directory and deserialization environment seen by
`load_model`: which of model.pkl / scaler.pkl / features.pkl exist,
whether the joblib loads succeed, and the artifacts they would yield. -/
structure ModelDirFS where
  model_file : Bool
  scaler_file : Bool
  features_file : Bool
  deserialization_ok : Bool
  trained_model : ModelObj
  trained_scaler : ScalerObj
  stored_features : List String

namespace WaterQualityPredictor

/-- `load_model` (predictor.py lines 80-115): returns false leaving the
state alone when model.pkl or scaler.pkl is absent or a load raises
(caught); on success installs the artifacts, the stored feature names (or
the canonical nine when features.pkl is absent) and sets `is_loaded`. It
never touches `model_version`. -/
def load_model (fs : ModelDirFS) (st : PredictorState) : Bool × PredictorState :=
  if ¬ (fs.model_file ∧ fs.scaler_file) then (false, st)
  else if ¬ fs.deserialization_ok then (false, st)
  else
    (true,
     { st with
        model := some fs.trained_model
        scaler := some fs.trained_scaler
        feature_names :=
          some (if fs.features_file then fs.stored_features else featureNames)
        is_loaded := true })

/-- `_initialize_fallback_model` (predictor.py lines 117-131): installs
the mock model, the mock scaler, the canonical feature names and the
version tag "fallback-1.0.0". It does not touch `is_loaded`. -/
def init_fallback_model (st : PredictorState) : PredictorState :=
  { st with
      model := some ModelObj.mock
      scaler := some ScalerObj.mock
      feature_names := some featureNames
      model_version := "fallback-1.0.0" }

/-- The field values set at the top of `__init__` (lines 68-73). -/
def initialState : PredictorState :=
  { model := none, scaler := none, feature_names := none,
    model_version := "1.0.0", is_loaded := false }

/-- `__init__` (lines 61-78): try `load_model`; if it reports failure,
install the fallback model. -/
def mkPredictor (fs : ModelDirFS) : PredictorState :=
  let r := load_model fs initialState
  if r.1 then r.2 else init_fallback_model r.2

end WaterQualityPredictor

/-- The engine state after startup with no trained artifact: the fallback
pair is installed. -/
def fallbackState : PredictorState :=
  WaterQualityPredictor.init_fallback_model WaterQualityPredictor.initialState

/-- `predict` of the fallback-backed engine on a list input. -/
def predictList (xs : List ℚ) : Except PredictError PredictionOutput :=
  WaterQualityPredictor.predict fallbackState xs

namespace ModelEvaluator

/-- `ModelEvaluator._calculate_overfitting` (model_evaluator.py lines
93-114): 0 when train F1 is 0, else max(0, (train − test) / train). -/
def calculate_overfitting (train_f1 test_f1 : ℚ) : ℚ :=
  if train_f1 = 0 then 0 else max 0 ((train_f1 - test_f1) / train_f1)

end ModelEvaluator

/-- Trainer state relevant to persistence (trainer.py): the fitted model
and scaler (None before training) and the feature-name list. -/
structure TrainerState where
  model : Option ModelObj
  scaler : Option ScalerObj
  feature_names : List String

/-- The result dictionary of `train_model` / `train_from_file`
(trainer.py): evaluation metrics plus the `model_saved` flag attached by
`train_from_file`. -/
structure TrainResults where
  accuracy : ℚ
  f1 : ℚ
  train_f1 : ℚ
  cv_mean : ℚ
  model_saved : Bool
deriving Repr, DecidableEq

namespace WaterQualityTrainer

/-- The body of `save_model`s try block (trainer.py lines 195-212):
raises ValueError "Model or scaler not trained" when model or scaler is
unset; otherwise dumps the three artifacts — `dumpOk` is the persistence
environment saying whether those joblib dumps succeed. -/
def save_model_body (st : TrainerState) (dumpOk : Bool) : Except String Unit :=
  if st.model.isNone ∨ st.scaler.isNone then
    Except.error "Model or scaler not trained"
  else if dumpOk then Except.ok () else Except.error "dump failed"

/-- `save_model` (trainer.py lines 188-216): the except block turns any
raised error into the return value False; success returns True. -/
def save_model (st : TrainerState) (dumpOk : Bool) : Bool :=
  match save_model_body st dumpOk with
  | Except.ok _ => true
  | Except.error _ => false

/-- The persistence tail of `train_from_file` (trainer.py lines 265-273):
after training produced `results` and trainer state `st`, set
`model_saved` from the outcome of `save_model`, leaving every evaluation
field of the results untouched. -/
def train_from_file_save (results : TrainResults) (st : TrainerState)
    (dumpOk : Bool) : TrainResults :=
  if save_model st dumpOk then { results with model_saved := true }
  else { results with model_saved := false }

end WaterQualityTrainer

/-! ### Helper lemmas -/

lemma pyMax_pair (u s : ℚ) : pyMax [u, s] = max u s := by
  simp [pyMax]

lemma max_ge_half (u s : ℚ) (hsum : u + s = 1) : 1 / 2 ≤ max u s := by
  rcases le_total u s with h | h
  · rw [max_eq_right h]; linarith
  · rw [max_eq_left h]; linarith

lemma assembleOutput_pair (pred : ℤ) (u s : ℚ) (v : String) (names : List String)
    (hu : 0 ≤ u) (hs : 0 ≤ s) (hsum : u + s = 1) :
    (assembleOutput pred [u, s] v names).probability = s ∧
    (assembleOutput pred [u, s] v names).confidence = max u s ∧
    0 ≤ (assembleOutput pred [u, s] v names).probability ∧
    (assembleOutput pred [u, s] v names).probability ≤ 1 ∧
    0 ≤ (assembleOutput pred [u, s] v names).confidence ∧
    (assembleOutput pred [u, s] v names).confidence ≤ 1 ∧
    1 / 2 ≤ (assembleOutput pred [u, s] v names).confidence := by
  have hprob : (assembleOutput pred [u, s] v names).probability = s := by
    simp [assembleOutput, deriveProbability]
  have hconf : (assembleOutput pred [u, s] v names).confidence = max u s := by
    simp [assembleOutput, deriveConfidence, pyMax_pair]
  refine ⟨hprob, hconf, ?_, ?_, ?_, ?_, ?_⟩
  · rw [hprob]; exact hs
  · rw [hprob]; linarith
  · rw [hconf]; exact le_trans hu (le_max_left u s)
  · rw [hconf]; exact max_le (by linarith) (by linarith)
  · rw [hconf]; exact max_ge_half u s hsum

lemma mock_proba_shape (row : List ℚ) :
    ∃ s : ℚ, MockModel.predict_proba row = [1 - s, s] ∧
      (0.01 : ℚ) ≤ s ∧ s ≤ (0.99 : ℚ) := by
  refine ⟨min 0.99 (max 0.01
      (0.5 + (if 6.5 ≤ row.getD 0 0 ∧ row.getD 0 0 ≤ 8.5 then 0.25 else 0)
           + (if row.getD 8 5 ≤ 5 then 0.15 else 0))), rfl, ?_, ?_⟩
  · exact le_min (by norm_num) (le_max_left _ _)
  · exact min_le_left _ _

lemma predictList_ok_shape (xs : List ℚ) (out : PredictionOutput)
    (h : predictList xs = Except.ok out) :
    ∃ row, out = assembleOutput (MockModel.predict row) (MockModel.predict_proba row)
      "fallback-1.0.0" featureNames := by
  unfold predictList WaterQualityPredictor.predict at h
  cases hp : parseList xs with
  | error e => rw [hp] at h; simp [Except.bind] at h
  | ok p =>
      rw [hp] at h
      simp only [Except.bind] at h
      unfold WaterQualityPredictor.predictParsed at h
      simp only [fallbackState, WaterQualityPredictor.init_fallback_model,
        WaterQualityPredictor.initialState] at h
      cases hv : validate_inference_data (to_array p) featureNames with
      | error e => rw [hv] at h; simp [Except.bind] at h
      | ok u =>
          rw [hv] at h
          simp only [Except.bind, Except.ok.injEq] at h
          exact ⟨to_array p, by
            rw [← h]
            simp [ScalerObj.transformRow, MockScaler.transform,
              ModelObj.predictRow, ModelObj.probaRow]⟩

lemma getD_irrel (xs : List ℚ) (i : Nat) (d d2 : ℚ) (h : i < xs.length) :
    xs.getD i d = xs.getD i d2 := by
  induction xs generalizing i with
  | nil => simp at h
  | cons a t ih =>
      cases i with
      | zero => rfl
      | succ n =>
          simp only [List.getD_cons_succ]
          exact ih n (by simpa using h)

lemma checkMins_ok_iff (row : List ℚ) (rs : List (ℚ × ℚ)) (i : Nat) :
    checkMins row rs i = Except.ok () ↔
      ∀ k, k < rs.length → (rs.getD k (0, 0)).1 ≤ row.getD (i + k) 0 := by
  induction rs generalizing i with
  | nil => simp [checkMins]
  | cons r rest ih =>
      rw [checkMins]
      split_ifs with h
      · constructor
        · intro hEq; exact absurd hEq (by simp)
        · intro hall
          have h0 := hall 0 (by simp)
          simp only [List.getD_cons_zero, Nat.add_zero] at h0
          exact absurd h0 (not_le.mpr h)
      · rw [ih]
        constructor
        · intro hall k hk
          cases k with
          | zero =>
              simpa using not_lt.mp h
          | succ n =>
              have hn := hall n (by simpa using hk)
              rw [show i + 1 + n = i + (n + 1) by omega] at hn
              simpa using hn
        · intro hall k hk
          have hn := hall (k + 1) (by simpa using hk)
          rw [show i + (k + 1) = i + 1 + k by omega] at hn
          simpa using hn

lemma checkMins_ok_or_error (row : List ℚ) (rs : List (ℚ × ℚ)) (i : Nat) :
    checkMins row rs i = Except.ok () ∨
      ∃ msg, checkMins row rs i = Except.error (PredictError.belowMin msg) := by
  induction rs generalizing i with
  | nil => left; rfl
  | cons r rest ih =>
      rw [checkMins]
      split_ifs with hc
      · right; exact ⟨_, rfl⟩
      · exact ih (i + 1)

lemma mkPredictionInput_ok_inv (x p : PredictionInput)
    (h : mkPredictionInput x = Except.ok p) :
    p = x ∧ 0 ≤ x.pH ∧ x.pH ≤ 14 ∧ 0 ≤ x.Hardness ∧ 0 ≤ x.Solids ∧
    0 ≤ x.Chloramines ∧ 0 ≤ x.Sulfate ∧ 0 ≤ x.Conductivity ∧
    0 ≤ x.Organic_carbon ∧ 0 ≤ x.Trihalomethanes ∧ 0 ≤ x.Turbidity := by
  rw [mkPredictionInput] at h
  split_ifs at h with h1 h2 h3 h4 h5 h6 h7 h8 h9x
  all_goals cases h
  exact ⟨rfl, h1.1, h1.2, not_lt.mp h2, not_lt.mp h3, not_lt.mp h4,
    not_lt.mp h5, not_lt.mp h6, not_lt.mp h7, not_lt.mp h8, not_lt.mp h9x⟩

lemma mkPredictionInput_ok_of (x : PredictionInput)
    (h1 : 0 ≤ x.pH) (h2 : x.pH ≤ 14) (h3 : 0 ≤ x.Hardness) (h4 : 0 ≤ x.Solids)
    (h5 : 0 ≤ x.Chloramines) (h6 : 0 ≤ x.Sulfate) (h7 : 0 ≤ x.Conductivity)
    (h8 : 0 ≤ x.Organic_carbon) (h9 : 0 ≤ x.Trihalomethanes)
    (h10 : 0 ≤ x.Turbidity) :
    mkPredictionInput x = Except.ok x := by
  rw [mkPredictionInput]
  split_ifs with g1 g2 g3 g4 g5 g6 g7 g8 g9
  all_goals first
    | rfl
    | exact g1 ⟨h1, h2⟩
    | linarith

lemma validate_fallback_ok (p : PredictionInput)
    (h1 : 0 ≤ p.pH) (h3 : 0 ≤ p.Hardness) (h4 : 0 ≤ p.Solids)
    (h5 : 0 ≤ p.Chloramines) (h6 : 0 ≤ p.Sulfate) (h7 : 0 ≤ p.Conductivity)
    (h8 : 0 ≤ p.Organic_carbon) (h9 : 0 ≤ p.Trihalomethanes)
    (h10 : 0 ≤ p.Turbidity) :
    validate_inference_data (to_array p) featureNames = Except.ok () := by
  rw [validate_inference_data, if_neg (by simp [to_array, featureNames])]
  rw [checkMins_ok_iff]
  intro k hk
  have hk9 : k < 9 := by simpa [feature_ranges] using hk
  interval_cases k <;> simpa [feature_ranges, to_array] using by assumption

lemma predictParsed_fallback_ok (p : PredictionInput)
    (h1 : 0 ≤ p.pH) (h3 : 0 ≤ p.Hardness) (h4 : 0 ≤ p.Solids)
    (h5 : 0 ≤ p.Chloramines) (h6 : 0 ≤ p.Sulfate) (h7 : 0 ≤ p.Conductivity)
    (h8 : 0 ≤ p.Organic_carbon) (h9 : 0 ≤ p.Trihalomethanes)
    (h10 : 0 ≤ p.Turbidity) :
    WaterQualityPredictor.predictParsed fallbackState p =
      Except.ok (assembleOutput (MockModel.predict (to_array p))
        (MockModel.predict_proba (to_array p)) "fallback-1.0.0" featureNames) := by
  show (validate_inference_data (to_array p) featureNames).bind _ = _
  rw [validate_fallback_ok p h1 h3 h4 h5 h6 h7 h8 h9 h10]
  rfl

lemma predictList_ok_eval (a b c d e f g h i : ℚ)
    (ha0 : 0 ≤ a) (ha14 : a ≤ 14) (hb : 0 ≤ b) (hc : 0 ≤ c) (hd : 0 ≤ d)
    (he : 0 ≤ e) (hf : 0 ≤ f) (hg : 0 ≤ g) (hh : 0 ≤ h) (hi : 0 ≤ i) :
    predictList [a, b, c, d, e, f, g, h, i] =
      Except.ok (assembleOutput (MockModel.predict [a, b, c, d, e, f, g, h, i])
        (MockModel.predict_proba [a, b, c, d, e, f, g, h, i])
        "fallback-1.0.0" featureNames) := by
  have hp : parseList [a, b, c, d, e, f, g, h, i] =
      Except.ok ⟨a, b, c, d, e, f, g, h, i⟩ := by
    rw [parseList, if_neg (by simp)]
    simp only [List.getD_cons_zero, List.getD_cons_succ]
    exact mkPredictionInput_ok_of ⟨a, b, c, d, e, f, g, h, i⟩
      ha0 ha14 hb hc hd he hf hg hh hi
  show (parseList _).bind _ = _
  rw [hp]
  show WaterQualityPredictor.predictParsed fallbackState _ = _
  exact predictParsed_fallback_ok ⟨a, b, c, d, e, f, g, h, i⟩
    ha0 hb hc hd he hf hg hh hi

lemma parseList_ok_inv (xs : List ℚ) (p : PredictionInput)
    (h : parseList xs = Except.ok p) :
    0 ≤ p.pH ∧ p.pH ≤ 14 ∧ 0 ≤ p.Hardness ∧ 0 ≤ p.Solids ∧
    0 ≤ p.Chloramines ∧ 0 ≤ p.Sulfate ∧ 0 ≤ p.Conductivity ∧
    0 ≤ p.Organic_carbon ∧ 0 ≤ p.Trihalomethanes ∧ 0 ≤ p.Turbidity := by
  rw [parseList] at h
  split_ifs at h with hlen
  obtain ⟨hpx, hrest⟩ := mkPredictionInput_ok_inv _ p h
  rw [hpx]
  exact hrest

lemma predict_batch_nil (st : PredictorState) :
    WaterQualityPredictor.predict_batch st [] = Except.ok [] := rfl

lemma predict_batch_cons (st : PredictorState) (x : List ℚ) (xs : List (List ℚ)) :
    WaterQualityPredictor.predict_batch st (x :: xs) =
      match WaterQualityPredictor.predict st x with
      | Except.error e => Except.error e
      | Except.ok y =>
          match WaterQualityPredictor.predict_batch st xs with
          | Except.error e => Except.error e
          | Except.ok ys => Except.ok (y :: ys) := by
  rw [WaterQualityPredictor.predict_batch, List.mapM_cons]
  show (WaterQualityPredictor.predict st x).bind _ = _
  cases WaterQualityPredictor.predict st x with
  | error e => rfl
  | ok y =>
      rw [show List.mapM (WaterQualityPredictor.predict st) xs =
        WaterQualityPredictor.predict_batch st xs from rfl]
      cases WaterQualityPredictor.predict_batch st xs with
      | error e => rfl
      | ok ys => rfl

/-! ### Claim theorems -/

/-- C1: when the classifier returns a two-element probability vector
[u, s] with nonnegative entries summing to 1, the output `predict`
assembles from it has probability_of_positive in [0,1], confidence in
[0,1], confidence equal to the maximum of the two class probabilities,
and confidence at least 1/2; moreover every output actually returned by
the fallback-backed `predict` satisfies all of these, its confidence
being the maximum of the two class probabilities [1 − p, p] the fallback
classifier produced. -/
theorem predict_probability_confidence_bounds (pred : ℤ) (u s : ℚ)
    (v : String) (names : List String)
    (hu : 0 ≤ u) (hs : 0 ≤ s) (hsum : u + s = 1) :
    ((assembleOutput pred [u, s] v names).confidence = max u s ∧
     0 ≤ (assembleOutput pred [u, s] v names).probability ∧
     (assembleOutput pred [u, s] v names).probability ≤ 1 ∧
     0 ≤ (assembleOutput pred [u, s] v names).confidence ∧
     (assembleOutput pred [u, s] v names).confidence ≤ 1 ∧
     1 / 2 ≤ (assembleOutput pred [u, s] v names).confidence) ∧
    (∀ xs out, predictList xs = Except.ok out →
       0 ≤ out.probability ∧ out.probability ≤ 1 ∧
       0 ≤ out.confidence ∧ out.confidence ≤ 1 ∧
       out.confidence = max (1 - out.probability) out.probability ∧
       1 / 2 ≤ out.confidence) := by
  constructor
  · obtain ⟨h1, h2, h3, h4, h5, h6, h7⟩ := assembleOutput_pair pred u s v names hu hs hsum
    exact ⟨h2, h3, h4, h5, h6, h7⟩
  · intro xs out hok
    obtain ⟨row, hrow⟩ := predictList_ok_shape xs out hok
    obtain ⟨p, hp, hp1, hp2⟩ := mock_proba_shape row
    rw [hp] at hrow
    obtain ⟨hprob, hconf, h3, h4, h5, h6, h7⟩ :=
      assembleOutput_pair (MockModel.predict row) (1 - p) p "fallback-1.0.0"
        featureNames (by linarith) (by linarith) (by ring)
    subst hrow
    exact ⟨h3, h4, h5, h6, by rw [hconf, hprob], h7⟩

/-- Witness for C1 at the concrete probability vector [1/4, 3/4]. -/
theorem predict_probability_confidence_bounds_witness :
    (assembleOutput 0 [1/4, 3/4] "fallback-1.0.0" featureNames).confidence =
      max (1/4 : ℚ) (3/4) ∧
    1 / 2 ≤ (assembleOutput 0 [1/4, 3/4] "fallback-1.0.0" featureNames).confidence :=
  ⟨(predict_probability_confidence_bounds 0 (1/4) (3/4) "fallback-1.0.0" featureNames
      (by norm_num) (by norm_num) (by norm_num)).1.1,
   (predict_probability_confidence_bounds 0 (1/4) (3/4) "fallback-1.0.0" featureNames
      (by norm_num) (by norm_num) (by norm_num)).1.2.2.2.2.2⟩

/-- C2: on any 9-element feature vector the fallback classifier, applied
through the fallback identity scaler, labels safe (1) iff pH ∈
[6.5, 8.5] and turbidity ≤ 5.0; its safe-class probability is 0.5 plus
0.25 when pH is in range plus 0.15 when turbidity is in range, clamped
to [0.01, 0.99], with the unsafe probability its complement; and the
fallback `predict` on [7, 200, 20000, 7, 300, 500, 15, 80, 4] returns
label 1, "Safe". -/
theorem mock_model_rules (xs : List ℚ) (h9 : xs.length = 9) :
    (MockModel.predict (MockScaler.transform xs) = 1 ↔
      (6.5 ≤ xs.getD 0 0 ∧ xs.getD 0 0 ≤ 8.5 ∧ xs.getD 8 0 ≤ 5)) ∧
    MockModel.predict_proba (MockScaler.transform xs) =
      [1 - min 0.99 (max 0.01
          (0.5 + (if 6.5 ≤ xs.getD 0 0 ∧ xs.getD 0 0 ≤ 8.5 then 0.25 else 0)
               + (if xs.getD 8 0 ≤ 5 then 0.15 else 0))),
       min 0.99 (max 0.01
          (0.5 + (if 6.5 ≤ xs.getD 0 0 ∧ xs.getD 0 0 ≤ 8.5 then 0.25 else 0)
               + (if xs.getD 8 0 ≤ 5 then 0.15 else 0)))] ∧
    predictList [7, 200, 20000, 7, 300, 500, 15, 80, 4] =
      Except.ok { prediction := 1, probability := 9/10, confidence := 9/10,
                  result := "Safe", model_version := "fallback-1.0.0",
                  features_used := featureNames } := by
  have h85 : xs.getD 8 5 = xs.getD 8 0 := getD_irrel xs 8 5 0 (by omega)
  refine ⟨?_, ?_, ?_⟩
  · simp only [MockModel.predict, MockScaler.transform, h85]
    split_ifs with h
    · exact iff_of_true rfl h
    · exact iff_of_false (by decide) h
  · simp only [MockModel.predict_proba, MockScaler.transform, h85]
  · rw [predictList_ok_eval 7 200 20000 7 300 500 15 80 4 (by norm_num)
      (by norm_num) (by norm_num) (by norm_num) (by norm_num) (by norm_num)
      (by norm_num) (by norm_num) (by norm_num) (by norm_num)]
    have hpred : MockModel.predict [7, 200, 20000, 7, 300, 500, 15, 80, 4] = 1 := by
      simp only [MockModel.predict, List.getD_cons_zero, List.getD_cons_succ]
      rw [if_pos (by norm_num)]
    have hproba : MockModel.predict_proba [7, 200, 20000, 7, 300, 500, 15, 80, 4] =
        [1/10, 9/10] := by
      simp only [MockModel.predict_proba, List.getD_cons_zero, List.getD_cons_succ]
      rw [if_pos (by norm_num), if_pos (by norm_num)]
      norm_num [min_def, max_def]
    rw [hpred, hproba]
    simp only [assembleOutput, deriveProbability, deriveConfidence, pyMax]
    norm_num [max_def]

/-- Witness for C2 at the concrete 9-element vector of the spec. -/
theorem mock_model_rules_witness :
    predictList [7, 200, 20000, 7, 300, 500, 15, 80, 4] =
      Except.ok { prediction := 1, probability := 9/10, confidence := 9/10,
                  result := "Safe", model_version := "fallback-1.0.0",
                  features_used := featureNames } :=
  (mock_model_rules [7, 200, 20000, 7, 300, 500, 15, 80, 4] (by decide)).2.2

/-- C3: `predict_batch` over a batch all of whose elements `predict`
accepts returns exactly one output per input, in input order (the output
list is the input list mapped through `predict`); if any element is
rejected, the whole call fails with an error and no partial list is
returned. -/
theorem predict_batch_order_and_fail_fast (st : PredictorState)
    (batch : List (List ℚ)) :
    ((∀ xs ∈ batch, (WaterQualityPredictor.predict st xs).isOk) →
        WaterQualityPredictor.predict_batch st batch =
          Except.ok (batch.map (fun xs =>
            ((WaterQualityPredictor.predict st xs).toOption).getD default))) ∧
    (∀ outs, WaterQualityPredictor.predict_batch st batch = Except.ok outs →
        outs.length = batch.length) ∧
    ((∃ xs ∈ batch, ¬ (WaterQualityPredictor.predict st xs).isOk) →
        ∃ e, WaterQualityPredictor.predict_batch st batch = Except.error e) := by
  induction batch with
  | nil =>
      refine ⟨fun _ => rfl, ?_, ?_⟩
      · intro outs h
        rw [predict_batch_nil] at h
        injection h with h
        rw [← h]
        rfl
      · rintro ⟨xs, hmem, -⟩
        exact absurd hmem (List.not_mem_nil xs)
  | cons x xs ih =>
      refine ⟨?_, ?_, ?_⟩
      · intro hall
        have hx := hall x (List.mem_cons_self x xs)
        cases hpx : WaterQualityPredictor.predict st x with
        | error e =>
            rw [hpx] at hx
            simp [Except.isOk, Except.toBool] at hx
        | ok y =>
            rw [predict_batch_cons, hpx,
              ih.1 (fun z hz => hall z (List.mem_cons_of_mem x hz))]
            simp [hpx, Except.toOption]
      · intro outs h
        rw [predict_batch_cons] at h
        cases hpx : WaterQualityPredictor.predict st x with
        | error e => rw [hpx] at h; exact Except.noConfusion h
        | ok y =>
            rw [hpx] at h
            cases hb : WaterQualityPredictor.predict_batch st xs with
            | error e => rw [hb] at h; exact Except.noConfusion h
            | ok ys =>
                rw [hb] at h
                injection h with h
                rw [← h, List.length_cons, List.length_cons,
                  ih.2.1 ys hb]
      · rintro ⟨z, hmem, hz⟩
        rcases List.mem_cons.mp hmem with hzx | hzxs
        · subst hzx
          cases hpx : WaterQualityPredictor.predict st z with
          | error e => exact ⟨e, by rw [predict_batch_cons, hpx]⟩
          | ok y =>
              rw [hpx] at hz
              simp [Except.isOk, Except.toBool] at hz
        · obtain ⟨e, he⟩ := ih.2.2 ⟨z, hzxs, hz⟩
          cases hpx : WaterQualityPredictor.predict st x with
          | error e2 => exact ⟨e2, by rw [predict_batch_cons, hpx]⟩
          | ok y => exact ⟨e, by rw [predict_batch_cons, hpx, he]⟩

/-- Witness for C3: a singleton batch of one valid record yields the
mapped singleton output list. -/
theorem predict_batch_order_and_fail_fast_witness :
    WaterQualityPredictor.predict_batch fallbackState
        [[7, 200, 20000, 7, 300, 500, 15, 80, 4]] =
      Except.ok ([[7, 200, 20000, 7, 300, 500, 15, 80, 4]].map (fun xs =>
        ((WaterQualityPredictor.predict fallbackState xs).toOption).getD default)) :=
  (predict_batch_order_and_fail_fast fallbackState
      [[7, 200, 20000, 7, 300, 500, 15, 80, 4]]).1 (by
    intro xs hx
    rw [List.mem_singleton] at hx
    subst hx
    have h := predictList_ok_eval 7 200 20000 7 300 500 15 80 4 (by norm_num)
      (by norm_num) (by norm_num) (by norm_num) (by norm_num) (by norm_num)
      (by norm_num) (by norm_num) (by norm_num) (by norm_num)
    rw [predictList] at h
    rw [h]
    rfl)

/-- C9: on any valid input whose pH lies in [6.5, 8.5] and whose
turbidity strictly exceeds 5.0, the fallback engine predicts label 0
("Not Safe") while reporting probability_of_positive 0.75 and confidence
0.75: the fallback classifier itself returns label 0 with probability
vector [0.25, 0.75], whose argmax is the positive class — the predicted
label disagrees with the argmax of its own probability vector. -/
theorem fallback_label_argmax_disagreement (a b c d e f g h i : ℚ)
    (hb : 0 ≤ b) (hc : 0 ≤ c) (hd : 0 ≤ d) (he : 0 ≤ e) (hf : 0 ≤ f)
    (hg : 0 ≤ g) (hh : 0 ≤ h)
    (hpH1 : 6.5 ≤ a) (hpH2 : a ≤ 8.5) (hturb : 5 < i) :
    predictList [a, b, c, d, e, f, g, h, i] =
      Except.ok { prediction := 0, probability := 3/4, confidence := 3/4,
                  result := "Not Safe", model_version := "fallback-1.0.0",
                  features_used := featureNames } ∧
    MockModel.predict [a, b, c, d, e, f, g, h, i] = 0 ∧
    MockModel.predict_proba [a, b, c, d, e, f, g, h, i] = [1/4, 3/4] := by
  have hpred : MockModel.predict [a, b, c, d, e, f, g, h, i] = 0 := by
    simp only [MockModel.predict, List.getD_cons_zero, List.getD_cons_succ]
    rw [if_neg]
    rintro ⟨-, -, hco⟩
    exact absurd hco (not_le.mpr hturb)
  have hproba : MockModel.predict_proba [a, b, c, d, e, f, g, h, i] =
      [1/4, 3/4] := by
    simp only [MockModel.predict_proba, List.getD_cons_zero, List.getD_cons_succ]
    rw [if_pos ⟨hpH1, hpH2⟩, if_neg (not_le.mpr hturb)]
    norm_num [min_def, max_def]
  refine ⟨?_, hpred, hproba⟩
  rw [predictList_ok_eval a b c d e f g h i (by linarith) (by linarith)
    hb hc hd he hf hg hh (by linarith)]
  rw [hpred, hproba]
  simp only [assembleOutput, deriveProbability, deriveConfidence, pyMax]
  norm_num [max_def]

/-- Witness for C9 at the concrete vector
[7, 200, 20000, 7, 300, 500, 15, 80, 6]. -/
theorem fallback_label_argmax_disagreement_witness :
    predictList [7, 200, 20000, 7, 300, 500, 15, 80, 6] =
      Except.ok { prediction := 0, probability := 3/4, confidence := 3/4,
                  result := "Not Safe", model_version := "fallback-1.0.0",
                  features_used := featureNames } ∧
    MockModel.predict [7, 200, 20000, 7, 300, 500, 15, 80, 6] = 0 ∧
    MockModel.predict_proba [7, 200, 20000, 7, 300, 500, 15, 80, 6] = [1/4, 3/4] :=
  fallback_label_argmax_disagreement 7 200 20000 7 300 500 15 80 6
    (by norm_num) (by norm_num) (by norm_num) (by norm_num) (by norm_num)
    (by norm_num) (by norm_num) (by norm_num) (by norm_num) (by norm_num)

/-- C10: when the model directory holds no complete trained artifact
pair, the engine built by `__init__` keeps is_loaded false while its
version becomes "fallback-1.0.0"; `get_model_info` therefore reports
model_loaded false, yet `predict` still returns a result on every input
the pydantic model accepts; and the only state transition that makes
is_loaded true is a `load_model` call that reports success —
`_initialize_fallback_model` never touches the flag. -/
theorem fallback_init_flags (fs : ModelDirFS)
    (habsent : ¬ (fs.model_file ∧ fs.scaler_file)) :
    (WaterQualityPredictor.mkPredictor fs).is_loaded = false ∧
    (WaterQualityPredictor.mkPredictor fs).model_version = "fallback-1.0.0" ∧
    (WaterQualityPredictor.get_model_info
        (WaterQualityPredictor.mkPredictor fs)).model_loaded = false ∧
    (∀ xs p, parseList xs = Except.ok p →
        (WaterQualityPredictor.predict
          (WaterQualityPredictor.mkPredictor fs) xs).isOk = true) ∧
    (∀ fs2 st,
        ((WaterQualityPredictor.load_model fs2 st).2.is_loaded = true →
          (WaterQualityPredictor.load_model fs2 st).1 = true ∨
            st.is_loaded = true) ∧
        (WaterQualityPredictor.init_fallback_model st).is_loaded =
          st.is_loaded) := by
  have hload : WaterQualityPredictor.load_model fs
      WaterQualityPredictor.initialState =
      (false, WaterQualityPredictor.initialState) := by
    rw [WaterQualityPredictor.load_model, if_pos habsent]
  have hmk : WaterQualityPredictor.mkPredictor fs = fallbackState := by
    rw [WaterQualityPredictor.mkPredictor, hload]
    rfl
  refine ⟨by rw [hmk]; rfl, by rw [hmk]; rfl, by rw [hmk]; rfl, ?_, ?_⟩
  · intro xs p hp
    rw [hmk, WaterQualityPredictor.predict, hp]
    show (WaterQualityPredictor.predictParsed fallbackState p).isOk = true
    obtain ⟨h1, h2, h3, h4, h5, h6, h7, h8, h9, h10⟩ := parseList_ok_inv xs p hp
    rw [predictParsed_fallback_ok p h1 h3 h4 h5 h6 h7 h8 h9 h10]
    rfl
  · intro fs2 st
    constructor
    · intro hld
      rw [WaterQualityPredictor.load_model] at hld ⊢
      split_ifs at hld ⊢ with hf1 hf2
      all_goals first | exact Or.inl rfl | exact Or.inr hld
    · rfl

/-- Witness for C10 at a model directory with no artifact files. -/
theorem fallback_init_flags_witness :
    (WaterQualityPredictor.mkPredictor
        ⟨false, false, false, true, ModelObj.mock, ScalerObj.mock,
          featureNames⟩).is_loaded = false ∧
    (WaterQualityPredictor.mkPredictor
        ⟨false, false, false, true, ModelObj.mock, ScalerObj.mock,
          featureNames⟩).model_version = "fallback-1.0.0" ∧
    (WaterQualityPredictor.predict
        (WaterQualityPredictor.mkPredictor
          ⟨false, false, false, true, ModelObj.mock, ScalerObj.mock,
            featureNames⟩)
        [7, 200, 20000, 7, 300, 500, 15, 80, 4]).isOk = true := by
  have h := fallback_init_flags
    ⟨false, false, false, true, ModelObj.mock, ScalerObj.mock, featureNames⟩
    (by simp)
  refine ⟨h.1, h.2.1, h.2.2.2.1 [7, 200, 20000, 7, 300, 500, 15, 80, 4]
    ⟨7, 200, 20000, 7, 300, 500, 15, 80, 4⟩ ?_⟩
  rw [parseList, if_neg (by simp)]
  simp only [List.getD_cons_zero, List.getD_cons_succ]
  exact mkPredictionInput_ok_of ⟨7, 200, 20000, 7, 300, 500, 15, 80, 4⟩
    (by norm_num) (by norm_num) (by norm_num) (by norm_num) (by norm_num)
    (by norm_num) (by norm_num) (by norm_num) (by norm_num) (by norm_num)

/-- C4: `predict` on the list [15, 200, 20000, 7, 300, 500, 15, 80, 4]
fails with the pH range error, raised already while constructing the
pydantic input model: the first conjunct locates the error in
`parseList`, the stage preceding validation, scaling and the classifier,
and the third shows the outcome is the same for every engine state, so
no scaler or classifier is consulted. -/
theorem predict_ph15_range_error :
    parseList [15, 200, 20000, 7, 300, 500, 15, 80, 4] =
      Except.error (PredictError.fieldRange "pH must be between 0 and 14") ∧
    predictList [15, 200, 20000, 7, 300, 500, 15, 80, 4] =
      Except.error (PredictError.fieldRange "pH must be between 0 and 14") ∧
    ∀ st : PredictorState,
      WaterQualityPredictor.predict st [15, 200, 20000, 7, 300, 500, 15, 80, 4] =
        Except.error (PredictError.fieldRange "pH must be between 0 and 14") := by
  have hp : parseList [15, 200, 20000, 7, 300, 500, 15, 80, 4] =
      Except.error (PredictError.fieldRange "pH must be between 0 and 14") := by rfl
  refine ⟨hp, ?_, ?_⟩
  · show WaterQualityPredictor.predict fallbackState _ = _
    rw [WaterQualityPredictor.predict, hp]; rfl
  · intro st
    rw [WaterQualityPredictor.predict, hp]; rfl

/-- C5 counterexample: a list of length 8 and a list of length 10 both
fail with the identical fixed message "Input list must have exactly 9
features"; the message therefore names the expected length only and
cannot identify the received length, contrary to the claim. -/
theorem predict_shape_msg_counterexample :
    predictList (List.replicate 8 1) =
      Except.error (PredictError.shape "Input list must have exactly 9 features") ∧
    predictList (List.replicate 10 1) =
      Except.error (PredictError.shape "Input list must have exactly 9 features") := by
  constructor <;> rfl

/-- C5 amended: every list input whose length is not 9 makes `predict`
fail with a shape error carrying the fixed message "Input list must have
exactly 9 features", which states the expected length (9) but not the
received one. -/
theorem predict_shape_error_fixed_message (xs : List ℚ) (h : xs.length ≠ 9) :
    predictList xs =
      Except.error (PredictError.shape "Input list must have exactly 9 features") := by
  show WaterQualityPredictor.predict fallbackState _ = _
  rw [WaterQualityPredictor.predict, parseList, if_pos h]; rfl

/-- Witness for the amended C5 at a concrete length-3 list. -/
theorem predict_shape_error_fixed_message_witness :
    List.length [(1 : ℚ), 2, 3] ≠ 9 ∧
    predictList [(1 : ℚ), 2, 3] =
      Except.error (PredictError.shape "Input list must have exactly 9 features") :=
  ⟨by decide, predict_shape_error_fixed_message [1, 2, 3] (by decide)⟩

/-- C6: in `validate_inference_data` on a 9-wide row, any value strictly
below its documented minimum makes the call fail with a below-minimum
range error; when every value meets its minimum the call succeeds no
matter how large any value is, and each value above its documented
typical maximum is merely recorded as a warning. -/
theorem validate_hard_min_soft_max (row : List ℚ) (h9 : row.length = 9) :
    ((∃ k, k < 9 ∧ row.getD k 0 < (feature_ranges.getD k (0, 0)).1) →
        ∃ msg, validate_inference_data row featureNames =
          Except.error (PredictError.belowMin msg)) ∧
    ((∀ k, k < 9 → (feature_ranges.getD k (0, 0)).1 ≤ row.getD k 0) →
        validate_inference_data row featureNames = Except.ok ()) ∧
    (∀ k, k < 9 → (feature_ranges.getD k (0, 0)).2 < row.getD k 0 →
        k ∈ rowWarnings row) := by
  have hw : ¬ (row.length ≠ featureNames.length) := by
    simp [h9, featureNames]
  have hlen : feature_ranges.length = 9 := by rfl
  refine ⟨?_, ?_, ?_⟩
  · rintro ⟨k, hk, hbelow⟩
    rw [validate_inference_data, if_neg hw]
    rcases checkMins_ok_or_error row feature_ranges 0 with hok | ⟨msg, herr⟩
    · exfalso
      rw [checkMins_ok_iff] at hok
      have hmin := hok k (by omega)
      rw [Nat.zero_add] at hmin
      exact absurd hmin (not_le.mpr hbelow)
    · exact ⟨msg, herr⟩
  · intro hall
    rw [validate_inference_data, if_neg hw, checkMins_ok_iff]
    intro k hk
    rw [Nat.zero_add]
    exact hall k (by omega)
  · intro k hk hmax
    rw [rowWarnings, List.mem_filter]
    refine ⟨by rw [List.mem_range]; omega, by simpa using hmax⟩

/-- Witness for C6 at the row [7, 200, 20000, 7, 300, 500, 15, 80, 25]:
all minimums hold so validation succeeds even though turbidity 25 exceeds
its typical maximum 20, which is recorded as warning index 8. -/
theorem validate_hard_min_soft_max_witness :
    validate_inference_data [7, 200, 20000, 7, 300, 500, 15, 80, 25] featureNames =
      Except.ok () ∧
    8 ∈ rowWarnings [7, 200, 20000, 7, 300, 500, 15, 80, 25] :=
  ⟨(validate_hard_min_soft_max [7, 200, 20000, 7, 300, 500, 15, 80, 25]
        (by decide)).2.1
      (by intro k hk; interval_cases k <;> norm_num [feature_ranges]),
   (validate_hard_min_soft_max [7, 200, 20000, 7, 300, 500, 15, 80, 25]
        (by decide)).2.2 8 (by decide) (by norm_num [feature_ranges])⟩

/-- C7: the overfitting score is max(0, (train − test) / train) whenever
train F1 is nonzero, 0 when train F1 is 0, 0 when the two F1 scores are
equal, and tends to 1 as test F1 tends to 0 with fixed positive train F1
(for every ε > 0 it exceeds 1 − ε once 0 ≤ test < ε·train, while never
exceeding 1). -/
theorem overfitting_score_props (train test : ℚ) :
    (train ≠ 0 → ModelEvaluator.calculate_overfitting train test =
        max 0 ((train - test) / train)) ∧
    ModelEvaluator.calculate_overfitting 0 test = 0 ∧
    ModelEvaluator.calculate_overfitting train train = 0 ∧
    (0 < train → ModelEvaluator.calculate_overfitting train 0 = 1) ∧
    (0 < train → ∀ ε : ℚ, 0 < ε → 0 ≤ test → test < ε * train →
        1 - ε < ModelEvaluator.calculate_overfitting train test ∧
        ModelEvaluator.calculate_overfitting train test ≤ 1) := by
  refine ⟨?_, ?_, ?_, ?_, ?_⟩
  · intro h; rw [ModelEvaluator.calculate_overfitting, if_neg h]
  · rw [ModelEvaluator.calculate_overfitting, if_pos rfl]
  · rcases eq_or_ne train 0 with h | h
    · rw [h, ModelEvaluator.calculate_overfitting, if_pos rfl]
    · rw [ModelEvaluator.calculate_overfitting, if_neg h, sub_self,
        zero_div, max_self]
  · intro h
    rw [ModelEvaluator.calculate_overfitting, if_neg (ne_of_gt h), sub_zero,
      div_self (ne_of_gt h)]
    norm_num
  · intro htrain ε hε htest hlt
    have hne : train ≠ 0 := ne_of_gt htrain
    rw [ModelEvaluator.calculate_overfitting, if_neg hne]
    have hdiv : (train - test) / train = 1 - test / train := by
      field_simp
    have h1 : test / train < ε := by
      rw [div_lt_iff₀ htrain]; linarith
    have h2 : 0 ≤ test / train := div_nonneg htest (le_of_lt htrain)
    constructor
    · calc 1 - ε < 1 - test / train := by linarith
        _ = (train - test) / train := hdiv.symm
        _ ≤ max 0 ((train - test) / train) := le_max_right _ _
    · refine max_le (by norm_num) ?_
      rw [hdiv]; linarith

/-- Witness for C7: overfitting score of train F1 = 4/5, test F1 = 1/100
lies in (1/2, 1], and at equal F1 scores it is 0. -/
theorem overfitting_score_props_witness :
    (1 - 1/2 < ModelEvaluator.calculate_overfitting (4/5) (1/100) ∧
     ModelEvaluator.calculate_overfitting (4/5) (1/100) ≤ 1) ∧
    ModelEvaluator.calculate_overfitting (4/5) (4/5) = 0 :=
  ⟨(overfitting_score_props (4/5) (1/100)).2.2.2.2 (by norm_num) (1/2)
      (by norm_num) (by norm_num) (by norm_num),
   (overfitting_score_props (4/5) (1/100)).2.2.1⟩

/-- C8: `save_model` raises (and its caught-exception boundary reports
failure) when the model or the scaler is unset; and the persistence tail
of `train_from_file` marks `model_saved` false on save failure and true
on success while leaving every evaluation field of the results intact —
training and persistence outcomes are reported independently. -/
theorem save_model_unset_and_independent_reporting (st : TrainerState)
    (dumpOk : Bool) (results : TrainResults) :
    ((st.model = none ∨ st.scaler = none) →
        WaterQualityTrainer.save_model_body st dumpOk =
          Except.error "Model or scaler not trained" ∧
        WaterQualityTrainer.save_model st dumpOk = false) ∧
    (WaterQualityTrainer.save_model st dumpOk = false →
        WaterQualityTrainer.train_from_file_save results st dumpOk =
          { results with model_saved := false }) ∧
    (WaterQualityTrainer.save_model st dumpOk = true →
        WaterQualityTrainer.train_from_file_save results st dumpOk =
          { results with model_saved := true }) := by
  refine ⟨?_, ?_, ?_⟩
  · intro h
    have hbody : WaterQualityTrainer.save_model_body st dumpOk =
        Except.error "Model or scaler not trained" := by
      rw [WaterQualityTrainer.save_model_body, if_pos]
      rcases h with h | h <;> simp [h]
    exact ⟨hbody, by rw [WaterQualityTrainer.save_model, hbody]⟩
  · intro h
    rw [WaterQualityTrainer.train_from_file_save, h]
    simp
  · intro h
    rw [WaterQualityTrainer.train_from_file_save, h]
    simp

/-- Witness for C8 at an untrained trainer state: save fails and the
results come back with every metric intact and model_saved false. -/
theorem save_model_unset_witness :
    (WaterQualityTrainer.save_model_body ⟨none, none, featureNames⟩ true =
        Except.error "Model or scaler not trained" ∧
     WaterQualityTrainer.save_model ⟨none, none, featureNames⟩ true = false) ∧
    WaterQualityTrainer.train_from_file_save ⟨9/10, 4/5, 17/20, 4/5, true⟩
        ⟨none, none, featureNames⟩ true = ⟨9/10, 4/5, 17/20, 4/5, false⟩ :=
  ⟨(save_model_unset_and_independent_reporting ⟨none, none, featureNames⟩ true
      ⟨9/10, 4/5, 17/20, 4/5, true⟩).1 (Or.inl rfl),
   (save_model_unset_and_independent_reporting ⟨none, none, featureNames⟩ true
      ⟨9/10, 4/5, 17/20, 4/5, true⟩).2.1 rfl⟩

end Aqualytics
